import Mathlib

/-!
Shallow embedding of the MindfulMate server (`src/server.ts`): a SQLite-backed
Express app with three tables (`users`, `chats`, `moods`), bcrypt password
hashing, JWT cookie sessions, and CRUD handlers. Handlers are modelled as pure
functions from the database state (plus the request cookie/body and, for
inserts, the current timestamp standing in for SQLite's CURRENT_TIMESTAMP) to
the new database state and the HTTP response.
-/

namespace MindfulMate

/-- A row of the `users` table: `id INTEGER PRIMARY KEY AUTOINCREMENT,
email TEXT UNIQUE, password TEXT, name TEXT` (password stores the bcrypt hash). -/
structure UserRow where
  id : Nat
  email : String
  password : String
  name : String
deriving DecidableEq, Repr

/-- A row of the `chats` table: `id, user_id, role, content,
timestamp DATETIME DEFAULT CURRENT_TIMESTAMP`. There is no mood column. -/
structure ChatRow where
  id : Nat
  user_id : Nat
  role : String
  content : String
  timestamp : Nat
deriving DecidableEq, Repr

/-- A row of the `moods` table: `id, user_id, mood,
timestamp DATETIME DEFAULT CURRENT_TIMESTAMP`. -/
structure MoodRow where
  id : Nat
  user_id : Nat
  mood : String
  timestamp : Nat
deriving DecidableEq, Repr

/-- The database `database.db`: the three tables plus the AUTOINCREMENT
counters that supply the next primary key for each table. -/
structure DB where
  users : List UserRow
  chats : List ChatRow
  moods : List MoodRow
  nextUserId : Nat
  nextChatId : Nat
  nextMoodId : Nat
deriving DecidableEq, Repr

/-- The object signed into the JWT by `jwt.sign({ id, email, name }, JWT_SECRET)`
and recovered by `jwt.verify`. -/
structure TokenPayload where
  id : Nat
  email : String
  name : String
deriving DecidableEq, Repr

/-- A session token: either a well-formed JWT signed with some key, or a
malformed/garbage string that no key verifies. -/
inductive Token where
  | signed (payload : TokenPayload) (key : String)
  | malformed (raw : String)
deriving DecidableEq, Repr

/-- `const JWT_SECRET = process.env.JWT_SECRET || "super-secret-key"`
(modelled with the env variable unset). -/
def JWT_SECRET : String := "super-secret-key"

/-- `jwt.sign(payload, key)`. -/
def jwtSign (payload : TokenPayload) (key : String) : Token :=
  Token.signed payload key

/-- `jwt.verify(token, key)`: succeeds exactly on a token signed with the same
key, returning the embedded payload; fails (the `err` branch) otherwise. -/
def jwtVerify (t : Token) (key : String) : Option TokenPayload :=
  match t with
  | Token.signed payload k => if k = key then some payload else none
  | Token.malformed _ => none

/-- `bcrypt.hash(password, 10)`: modelled as a deterministic injective tagging
of the password (the salt is irrelevant to the verified properties). -/
def bcryptHash (password : String) : String :=
  "bcrypt$2a$10$" ++ password

/-- `bcrypt.compare(password, hash)`: true iff the hash is the hash of the
password. -/
def bcryptCompare (password hash : String) : Bool :=
  hash = bcryptHash password

/-- JSON response bodies produced by the handlers in `server.ts`. -/
inductive Body where
  | profile (id : Nat) (email name : String)
  | error (msg : String)
  | chatList (rows : List ChatRow)
  | moodList (rows : List MoodRow)
  | success
  | message (msg : String)
deriving DecidableEq, Repr

/-- An HTTP response: status code, JSON body, and the session cookie set by
`res.cookie("token", ...)` when present. -/
structure Response where
  status : Nat
  body : Body
  setCookie : Option Token
deriving DecidableEq, Repr

/-- `SELECT * FROM users WHERE email = ?` (`.get` returns the first match). -/
def findUserByEmail (db : DB) (email : String) : Option UserRow :=
  db.users.find? (fun u => u.email = email)

/-- Sort by non-decreasing key: the model of `ORDER BY timestamp ASC`. -/
def sortByKey (key : α → Nat) (l : List α) : List α :=
  List.insertionSort (fun a b => key a ≤ key b) l

/-- `SELECT * FROM chats WHERE user_id = ? ORDER BY timestamp ASC`. -/
def selectChats (db : DB) (uid : Nat) : List ChatRow :=
  sortByKey (fun c => c.timestamp) (db.chats.filter (fun c => c.user_id = uid))

/-- `SELECT * FROM moods WHERE user_id = ? ORDER BY timestamp ASC`. -/
def selectMoods (db : DB) (uid : Nat) : List MoodRow :=
  sortByKey (fun m => m.timestamp) (db.moods.filter (fun m => m.user_id = uid))

/-- The `authenticateToken` middleware: no cookie → `401 {error:"Unauthorized"}`;
`jwt.verify` failure → `403 {error:"Forbidden"}`; success → `req.user` is the
payload and the protected handler runs. -/
def authenticateToken (cookie : Option Token) : Except Response TokenPayload :=
  match cookie with
  | none => Except.error ⟨401, Body.error "Unauthorized", none⟩
  | some t =>
    match jwtVerify t JWT_SECRET with
    | none => Except.error ⟨403, Body.error "Forbidden", none⟩
    | some user => Except.ok user

/-- `POST /api/auth/signup`: hashes the password, tries the INSERT (which the
UNIQUE constraint on email rejects iff a user with that email exists, caught as
`400 {error:"Email already exists"}`), then signs a token, sets the cookie and
returns the profile. -/
def postSignup (db : DB) (email password name : String) : DB × Response :=
  let hashedPassword := bcryptHash password
  if db.users.any (fun u => u.email = email) then
    (db, ⟨400, Body.error "Email already exists", none⟩)
  else
    let uid := db.nextUserId
    let db' : DB := { db with
      users := db.users ++ [⟨uid, email, hashedPassword, name⟩],
      nextUserId := uid + 1 }
    (db', ⟨200, Body.profile uid email name,
           some (jwtSign ⟨uid, email, name⟩ JWT_SECRET)⟩)

/-- `POST /api/auth/login`: looks the user up by email; if absent or the bcrypt
comparison fails, `401 {error:"Invalid credentials"}`; otherwise signs a token,
sets the cookie and returns the profile. -/
def postLogin (db : DB) (email password : String) : Response :=
  match findUserByEmail db email with
  | none => ⟨401, Body.error "Invalid credentials", none⟩
  | some user =>
    if bcryptCompare password user.password then
      ⟨200, Body.profile user.id user.email user.name,
       some (jwtSign ⟨user.id, user.email, user.name⟩ JWT_SECRET)⟩
    else
      ⟨401, Body.error "Invalid credentials", none⟩

/-- `GET /api/auth/me` (protected): returns `req.user`. -/
def getMe (db : DB) (cookie : Option Token) : DB × Response :=
  match authenticateToken cookie with
  | Except.error r => (db, r)
  | Except.ok user => (db, ⟨200, Body.profile user.id user.email user.name, none⟩)

/-- `GET /api/moods` (protected): the user's mood rows ordered by timestamp. -/
def getMoods (db : DB) (cookie : Option Token) : DB × Response :=
  match authenticateToken cookie with
  | Except.error r => (db, r)
  | Except.ok user => (db, ⟨200, Body.moodList (selectMoods db user.id), none⟩)

/-- The JSON body a client may send to `POST /api/moods`. Besides `mood`, the
extra fields a request could carry (an attempted `user_id` or `timestamp`) are
modelled explicitly; the handler destructures only `{ mood }`. -/
structure MoodPostBody where
  mood : String
  user_id : Option Nat
  timestamp : Option Nat
deriving DecidableEq, Repr

/-- `POST /api/moods` (protected): `INSERT INTO moods (user_id, mood)` with
`user_id = req.user.id`; the timestamp defaults to CURRENT_TIMESTAMP (`now`). -/
def postMoods (db : DB) (now : Nat) (cookie : Option Token)
    (reqBody : MoodPostBody) : DB × Response :=
  match authenticateToken cookie with
  | Except.error r => (db, r)
  | Except.ok user =>
    let db' : DB := { db with
      moods := db.moods ++ [⟨db.nextMoodId, user.id, reqBody.mood, now⟩],
      nextMoodId := db.nextMoodId + 1 }
    (db', ⟨200, Body.success, none⟩)

/-- `GET /api/chats` (protected): the user's chat rows ordered by timestamp. -/
def getChats (db : DB) (cookie : Option Token) : DB × Response :=
  match authenticateToken cookie with
  | Except.error r => (db, r)
  | Except.ok user => (db, ⟨200, Body.chatList (selectChats db user.id), none⟩)

/-- The JSON body a client may send to `POST /api/chats`. The client sends
`{role, content, timestamp}` and, for bot messages, `mood`; a request could
also carry a `user_id`. The handler destructures only `{ role, content }`. -/
structure ChatPostBody where
  role : String
  content : String
  mood : Option String
  user_id : Option Nat
  timestamp : Option Nat
deriving DecidableEq, Repr

/-- `POST /api/chats` (protected): `INSERT INTO chats (user_id, role, content)`
with `user_id = req.user.id`; the timestamp defaults to CURRENT_TIMESTAMP
(`now`). No field of the body other than `role` and `content` is read, and no
validation is performed. -/
def postChats (db : DB) (now : Nat) (cookie : Option Token)
    (reqBody : ChatPostBody) : DB × Response :=
  match authenticateToken cookie with
  | Except.error r => (db, r)
  | Except.ok user =>
    let db' : DB := { db with
      chats := db.chats ++
        [⟨db.nextChatId, user.id, reqBody.role, reqBody.content, now⟩],
      nextChatId := db.nextChatId + 1 }
    (db', ⟨200, Body.success, none⟩)

/-- `DELETE /api/chats` (protected): `DELETE FROM chats WHERE user_id = ?`. -/
def deleteChats (db : DB) (cookie : Option Token) : DB × Response :=
  match authenticateToken cookie with
  | Except.error r => (db, r)
  | Except.ok user =>
    (({ db with chats := db.chats.filter (fun c => ¬ c.user_id = user.id) }),
     ⟨200, Body.success, none⟩)

/-! ### Helper lemmas about the `ORDER BY` model -/

/-- `sortByKey` output is sorted by non-decreasing key. -/
lemma sorted_sortByKey (key : α → Nat) (l : List α) :
    List.Sorted (fun a b => key a ≤ key b) (sortByKey key l) := by
  haveI : IsTotal α (fun a b => key a ≤ key b) :=
    ⟨fun a b => Nat.le_total (key a) (key b)⟩
  haveI : IsTrans α (fun a b => key a ≤ key b) :=
    ⟨fun _ _ _ hab hbc => Nat.le_trans hab hbc⟩
  exact List.sorted_insertionSort _ l

/-- `sortByKey` preserves membership. -/
lemma mem_sortByKey {key : α → Nat} {l : List α} {a : α} :
    a ∈ sortByKey key l ↔ a ∈ l :=
  List.mem_insertionSort _

/-- A token signed with a key verifies under that key to its payload. -/
lemma jwtVerify_sign (p : TokenPayload) (k : String) :
    jwtVerify (jwtSign p k) k = some p := by
  simp [jwtVerify, jwtSign]

/-! ### Concrete fixtures used by witnesses and counterexamples -/

/-- A registered user with email `a@x.com` and password `pw` (stored hashed). -/
def alice : UserRow := ⟨1, "a@x.com", bcryptHash "pw", "A"⟩

/-- A database holding exactly the user `alice` and no chats or moods. -/
def dbW : DB := ⟨[alice], [], [], 2, 1, 1⟩

/-- The token payload the server signs for `alice`. -/
def aliceP : TokenPayload := ⟨1, "a@x.com", "A"⟩

/-- A valid session cookie for `alice`. -/
def tokW : Option Token := some (jwtSign aliceP JWT_SECRET)

/-- A database where user 1 (`alice`) and user 2 each own one chat row. -/
def dbC : DB :=
  ⟨[alice], [⟨1, 1, "user", "hi", 1⟩, ⟨2, 2, "user", "yo", 2⟩], [], 2, 3, 1⟩

/-! ### Claim theorems -/

/-- C1: for the login operation, a request with a registered email but a wrong
password and a request with an unknown email both fail with the identical
response — status 401 and body `{error: "Invalid credentials"}` — so the two
failure causes are indistinguishable to the client. -/
theorem login_failures_indistinguishable
    (db : DB) (e1 p1 e2 p2 : String) (u : UserRow)
    (h1 : findUserByEmail db e1 = some u)
    (h2 : bcryptCompare p1 u.password = false)
    (h3 : findUserByEmail db e2 = none) :
    postLogin db e1 p1 = ⟨401, Body.error "Invalid credentials", none⟩ ∧
    postLogin db e2 p2 = postLogin db e1 p1 := by
  unfold postLogin
  rw [h1, h3]
  simp [h2]

/-- Witness for C1: in a store holding `alice` (email `a@x.com`, password
`pw`), logging in as `a@x.com` with password `bad` and as unknown `b@x.com`
give the identical 401 response. -/
theorem login_failures_indistinguishable_witness :
    postLogin dbW "a@x.com" "bad" = ⟨401, Body.error "Invalid credentials", none⟩ ∧
    postLogin dbW "b@x.com" "pw" = postLogin dbW "a@x.com" "bad" :=
  login_failures_indistinguishable dbW "a@x.com" "bad" "b@x.com" "pw" alice
    (by decide) (by decide) (by decide)

/-- C2: a signup whose email already belongs to an existing user fails with
status 400 and `{error: "Email already exists"}` and leaves the whole database
unchanged; a signup with a fresh email succeeds (status 200) and appends
exactly one user row. -/
theorem signup_duplicate_rejected_fresh_inserted
    (db : DB) (email password name : String) :
    ((∃ u ∈ db.users, u.email = email) →
      postSignup db email password name =
        (db, ⟨400, Body.error "Email already exists", none⟩)) ∧
    ((∀ u ∈ db.users, u.email ≠ email) →
      (postSignup db email password name).1.users =
        db.users ++ [⟨db.nextUserId, email, bcryptHash password, name⟩] ∧
      (postSignup db email password name).2.status = 200) := by
  constructor
  · rintro ⟨u, hu, he⟩
    have hany : db.users.any (fun u => u.email = email) = true := by
      simp only [List.any_eq_true]
      exact ⟨u, hu, by simp [he]⟩
    simp [postSignup, hany]
  · intro hfresh
    have hany : db.users.any (fun u => u.email = email) = false := by
      simp only [List.any_eq_false]
      intro u hu
      simp [hfresh u hu]
    simp [postSignup, hany]

/-- Witness for C2: signing `a@x.com` up again in `dbW` fails with 400 and the
store is unchanged; signing up the fresh `b@x.com` appends exactly one row. -/
theorem signup_duplicate_rejected_fresh_inserted_witness :
    postSignup dbW "a@x.com" "q" "B" =
      (dbW, ⟨400, Body.error "Email already exists", none⟩) ∧
    (postSignup dbW "b@x.com" "q" "B").1.users =
      dbW.users ++ [⟨2, "b@x.com", bcryptHash "q", "B"⟩] :=
  ⟨(signup_duplicate_rejected_fresh_inserted dbW "a@x.com" "q" "B").1
      ⟨alice, by decide, by decide⟩,
   ((signup_duplicate_rejected_fresh_inserted dbW "b@x.com" "q" "B").2
      (by decide)).1⟩

/-- C3 counterexample: a protected endpoint hit with an invalid (malformed)
token responds with status 403 (`{error: "Forbidden"}`), not 401 as the claim
states. -/
theorem invalid_token_gets_403_not_401 :
    (getChats dbW (some (Token.malformed "garbage"))).2.status = 403 ∧
    ¬ (getChats dbW (some (Token.malformed "garbage"))).2.status = 401 := by
  decide

/-- C3 (amended): on every protected endpoint, a request with no session token
fails with 401 `{error: "Unauthorized"}` and a request whose token does not
verify fails with 403 `{error: "Forbidden"}`, in both cases with the database
unchanged (the protected handler never runs); with a validly signed token the
middleware injects the payload identity `{id, email, name}` as `req.user`, as
`GET /api/auth/me` exhibits. -/
theorem auth_middleware_gates_protected_endpoints
    (db : DB) (now : Nat) (cb : ChatPostBody) (mb : MoodPostBody)
    (p : TokenPayload) (t : Token)
    (hbad : jwtVerify t JWT_SECRET = none) :
    (getMe db none = (db, ⟨401, Body.error "Unauthorized", none⟩) ∧
     getChats db none = (db, ⟨401, Body.error "Unauthorized", none⟩) ∧
     postChats db now none cb = (db, ⟨401, Body.error "Unauthorized", none⟩) ∧
     deleteChats db none = (db, ⟨401, Body.error "Unauthorized", none⟩) ∧
     getMoods db none = (db, ⟨401, Body.error "Unauthorized", none⟩) ∧
     postMoods db now none mb = (db, ⟨401, Body.error "Unauthorized", none⟩)) ∧
    (getMe db (some t) = (db, ⟨403, Body.error "Forbidden", none⟩) ∧
     getChats db (some t) = (db, ⟨403, Body.error "Forbidden", none⟩) ∧
     postChats db now (some t) cb = (db, ⟨403, Body.error "Forbidden", none⟩) ∧
     deleteChats db (some t) = (db, ⟨403, Body.error "Forbidden", none⟩) ∧
     getMoods db (some t) = (db, ⟨403, Body.error "Forbidden", none⟩) ∧
     postMoods db now (some t) mb = (db, ⟨403, Body.error "Forbidden", none⟩)) ∧
    (authenticateToken (some (jwtSign p JWT_SECRET)) = Except.ok p ∧
     getMe db (some (jwtSign p JWT_SECRET)) =
       (db, ⟨200, Body.profile p.id p.email p.name, none⟩)) := by
  refine ⟨⟨?_, ?_, ?_, ?_, ?_, ?_⟩, ⟨?_, ?_, ?_, ?_, ?_, ?_⟩, ?_, ?_⟩ <;>
    simp [getMe, getChats, postChats, deleteChats, getMoods, postMoods,
      authenticateToken, hbad, jwtVerify_sign]

/-- Witness for C3 (amended), at the concrete store `dbW`, the malformed token
`"garbage"` and the payload of `alice`. -/
theorem auth_middleware_gates_protected_endpoints_witness :
    (getMe dbW none = (dbW, ⟨401, Body.error "Unauthorized", none⟩) ∧
     getChats dbW none = (dbW, ⟨401, Body.error "Unauthorized", none⟩) ∧
     postChats dbW 0 none ⟨"user", "hi", none, none, none⟩ =
       (dbW, ⟨401, Body.error "Unauthorized", none⟩) ∧
     deleteChats dbW none = (dbW, ⟨401, Body.error "Unauthorized", none⟩) ∧
     getMoods dbW none = (dbW, ⟨401, Body.error "Unauthorized", none⟩) ∧
     postMoods dbW 0 none ⟨"Happy", none, none⟩ =
       (dbW, ⟨401, Body.error "Unauthorized", none⟩)) ∧
    (getMe dbW (some (Token.malformed "garbage")) =
       (dbW, ⟨403, Body.error "Forbidden", none⟩) ∧
     getChats dbW (some (Token.malformed "garbage")) =
       (dbW, ⟨403, Body.error "Forbidden", none⟩) ∧
     postChats dbW 0 (some (Token.malformed "garbage")) ⟨"user", "hi", none, none, none⟩ =
       (dbW, ⟨403, Body.error "Forbidden", none⟩) ∧
     deleteChats dbW (some (Token.malformed "garbage")) =
       (dbW, ⟨403, Body.error "Forbidden", none⟩) ∧
     getMoods dbW (some (Token.malformed "garbage")) =
       (dbW, ⟨403, Body.error "Forbidden", none⟩) ∧
     postMoods dbW 0 (some (Token.malformed "garbage")) ⟨"Happy", none, none⟩ =
       (dbW, ⟨403, Body.error "Forbidden", none⟩)) ∧
    (authenticateToken (some (jwtSign aliceP JWT_SECRET)) = Except.ok aliceP ∧
     getMe dbW (some (jwtSign aliceP JWT_SECRET)) =
       (dbW, ⟨200, Body.profile aliceP.id aliceP.email aliceP.name, none⟩)) :=
  auth_middleware_gates_protected_endpoints dbW 0
    ⟨"user", "hi", none, none, none⟩ ⟨"Happy", none, none⟩
    aliceP (Token.malformed "garbage") (by decide)

/-- C4: for every user and store state, `GET /api/chats` and `GET /api/moods`
return that user's rows in non-decreasing timestamp order. -/
theorem list_endpoints_sorted_by_timestamp (db : DB) (p : TokenPayload) :
    (getChats db (some (jwtSign p JWT_SECRET)) =
       (db, ⟨200, Body.chatList (selectChats db p.id), none⟩) ∧
     List.Sorted (fun a b => a.timestamp ≤ b.timestamp) (selectChats db p.id)) ∧
    (getMoods db (some (jwtSign p JWT_SECRET)) =
       (db, ⟨200, Body.moodList (selectMoods db p.id), none⟩) ∧
     List.Sorted (fun a b => a.timestamp ≤ b.timestamp) (selectMoods db p.id)) := by
  refine ⟨⟨?_, ?_⟩, ⟨?_, ?_⟩⟩
  · simp [getChats, authenticateToken, jwtVerify, jwtSign]
  · exact sorted_sortByKey _ _
  · simp [getMoods, authenticateToken, jwtVerify, jwtSign]
  · exact sorted_sortByKey _ _

/-- C5: `DELETE /api/chats` as a user removes exactly that user's chat rows:
afterwards no row of that user remains, every other user's row survives
unchanged, and the other tables are untouched. -/
theorem deleteChats_removes_exactly_own_rows (db : DB) (p : TokenPayload) :
    (deleteChats db (some (jwtSign p JWT_SECRET))).1.chats =
      db.chats.filter (fun c => ¬ c.user_id = p.id) ∧
    (∀ c ∈ (deleteChats db (some (jwtSign p JWT_SECRET))).1.chats,
       c.user_id ≠ p.id) ∧
    (∀ c ∈ db.chats, c.user_id ≠ p.id →
       c ∈ (deleteChats db (some (jwtSign p JWT_SECRET))).1.chats) ∧
    (deleteChats db (some (jwtSign p JWT_SECRET))).1.moods = db.moods ∧
    (deleteChats db (some (jwtSign p JWT_SECRET))).1.users = db.users := by
  refine ⟨?_, ?_, ?_, ?_, ?_⟩ <;>
    simp [deleteChats, authenticateToken, jwtVerify, jwtSign, List.mem_filter]
  intro c hc hne
  exact ⟨hc, hne⟩

/-- Witness for C5: clearing chats as `alice` (user 1) in a store where users
1 and 2 each own a row leaves exactly the filter of the table, and user 2's
row survives. -/
theorem deleteChats_removes_exactly_own_rows_witness :
    (deleteChats dbC (some (jwtSign aliceP JWT_SECRET))).1.chats =
      dbC.chats.filter (fun c => ¬ c.user_id = aliceP.id) ∧
    (⟨2, 2, "user", "yo", 2⟩ : ChatRow) ∈
      (deleteChats dbC (some (jwtSign aliceP JWT_SECRET))).1.chats :=
  ⟨(deleteChats_removes_exactly_own_rows dbC aliceP).1,
   (deleteChats_removes_exactly_own_rows dbC aliceP).2.2.1
     ⟨2, 2, "user", "yo", 2⟩ (by decide) (by decide)⟩

/-- C6: round trip — after a message is appended via `POST /api/chats` with a
given role and content, `GET /api/chats` for the same user returns a list
containing a message with exactly that role and content, unmutated. -/
theorem chat_roundtrip_preserves_role_content
    (db : DB) (now : Nat) (p : TokenPayload) (reqBody : ChatPostBody) :
    ∃ l, getChats (postChats db now (some (jwtSign p JWT_SECRET)) reqBody).1
           (some (jwtSign p JWT_SECRET)) =
         ((postChats db now (some (jwtSign p JWT_SECRET)) reqBody).1,
          ⟨200, Body.chatList l, none⟩) ∧
         ∃ m ∈ l, m.role = reqBody.role ∧ m.content = reqBody.content := by
  refine ⟨selectChats (postChats db now (some (jwtSign p JWT_SECRET)) reqBody).1 p.id,
    ?_, ⟨db.nextChatId, p.id, reqBody.role, reqBody.content, now⟩, ?_, rfl, rfl⟩
  · simp [getChats, authenticateToken, jwtVerify_sign]
  · rw [selectChats, mem_sortByKey, List.mem_filter]
    refine ⟨?_, by simp⟩
    simp [postChats, authenticateToken, jwtVerify_sign]

/-- C7: per-user read isolation — starting from a store with no chats, after
users A and B each append one message, `GET /api/chats` as A returns exactly
the one message A appended and nothing of B's. -/
theorem getChats_isolates_users
    (db : DB) (nowA nowB : Nat) (pA pB : TokenPayload)
    (bodyA bodyB : ChatPostBody)
    (hne : pA.id ≠ pB.id) (hempty : db.chats = []) :
    getChats
      (postChats (postChats db nowA (some (jwtSign pA JWT_SECRET)) bodyA).1
        nowB (some (jwtSign pB JWT_SECRET)) bodyB).1
      (some (jwtSign pA JWT_SECRET)) =
    ((postChats (postChats db nowA (some (jwtSign pA JWT_SECRET)) bodyA).1
        nowB (some (jwtSign pB JWT_SECRET)) bodyB).1,
     ⟨200, Body.chatList
        [⟨db.nextChatId, pA.id, bodyA.role, bodyA.content, nowA⟩], none⟩) := by
  simp [getChats, postChats, authenticateToken, jwtVerify_sign,
    selectChats, sortByKey, hempty, hne.symm]

/-- Witness for C7: users 1 and 2 each append one message to an empty store;
listing as user 1 returns exactly user 1's message. -/
theorem getChats_isolates_users_witness :
    getChats
      (postChats (postChats ⟨[], [], [], 1, 1, 1⟩ 3
          (some (jwtSign ⟨1, "a@x.com", "A"⟩ JWT_SECRET))
          ⟨"user", "hello", none, none, none⟩).1
        4 (some (jwtSign ⟨2, "b@x.com", "B"⟩ JWT_SECRET))
        ⟨"user", "yo", none, none, none⟩).1
      (some (jwtSign ⟨1, "a@x.com", "A"⟩ JWT_SECRET)) =
    ((postChats (postChats ⟨[], [], [], 1, 1, 1⟩ 3
          (some (jwtSign ⟨1, "a@x.com", "A"⟩ JWT_SECRET))
          ⟨"user", "hello", none, none, none⟩).1
        4 (some (jwtSign ⟨2, "b@x.com", "B"⟩ JWT_SECRET))
        ⟨"user", "yo", none, none, none⟩).1,
     ⟨200, Body.chatList [⟨1, 1, "user", "hello", 3⟩], none⟩) :=
  getChats_isolates_users ⟨[], [], [], 1, 1, 1⟩ 3 4
    ⟨1, "a@x.com", "A"⟩ ⟨2, "b@x.com", "B"⟩
    ⟨"user", "hello", none, none, none⟩ ⟨"user", "yo", none, none, none⟩
    (by decide) rfl

/-- C8 counterexample: appending a bot message with mood `"Happy"` and
appending the same message with no mood produce the identical database state
and response — the mood sent with a chat message is not stored at all, so no
persisted or listed ChatMessage carries a mood label. -/
theorem chat_mood_not_persisted :
    postChats dbW 5 tokW ⟨"bot", "hi", some "Happy", none, none⟩ =
    postChats dbW 5 tokW ⟨"bot", "hi", none, none, none⟩ := by
  decide

/-- C8 (amended): persisted chat rows carry no mood label — `POST /api/chats`
reads only role and content, so the result (state and response) is the same
whatever mood field the body carries, and the inserted row consists of id,
user id, role, content and timestamp only. -/
theorem postChats_ignores_mood
    (db : DB) (now : Nat) (cookie : Option Token)
    (role content : String) (m1 m2 : Option String) (u ts : Option Nat) :
    postChats db now cookie ⟨role, content, m1, u, ts⟩ =
    postChats db now cookie ⟨role, content, m2, u, ts⟩ := by
  unfold postChats
  cases authenticateToken cookie <;> rfl

/-- C9 counterexample: a chat append with an empty role is inserted anyway —
the row `⟨1, 1, "", "hello", 7⟩` lands in the chats table and the server
responds 200 `{success: true}`, contradicting the claim that an empty role is
not inserted. -/
theorem empty_role_is_inserted :
    (postChats dbW 7 tokW ⟨"", "hello", none, none, none⟩).1.chats =
      [⟨1, 1, "", "hello", 7⟩] ∧
    (postChats dbW 7 tokW ⟨"", "hello", none, none, none⟩).2 =
      ⟨200, Body.success, none⟩ := by
  decide

/-- C9 (amended): `POST /api/chats` performs no validation at all — for every
authenticated request, whatever the role (empty included), it inserts one
timestamped row with the given role and content and returns a 200 ack. -/
theorem postChats_no_validation
    (db : DB) (now : Nat) (p : TokenPayload) (reqBody : ChatPostBody) :
    (postChats db now (some (jwtSign p JWT_SECRET)) reqBody).1.chats =
      db.chats ++ [⟨db.nextChatId, p.id, reqBody.role, reqBody.content, now⟩] ∧
    (postChats db now (some (jwtSign p JWT_SECRET)) reqBody).2 =
      ⟨200, Body.success, none⟩ := by
  constructor <;> simp [postChats, authenticateToken, jwtVerify_sign]

/-- C10: write ownership — rows inserted by `POST /api/chats` and
`POST /api/moods` take their `user_id` from the authenticated token's payload,
and any `user_id` or `timestamp` supplied in the request body is ignored (the
outcome is identical whatever those fields hold), so no authenticated user can
create a row owned by another user. -/
theorem writes_owned_by_token_identity
    (db : DB) (now : Nat) (p : TokenPayload)
    (role content mood : String) (m : Option String)
    (u1 u2 t1 t2 mu1 mu2 mt1 mt2 : Option Nat) :
    (postChats db now (some (jwtSign p JWT_SECRET)) ⟨role, content, m, u1, t1⟩).1.chats =
      db.chats ++ [⟨db.nextChatId, p.id, role, content, now⟩] ∧
    postChats db now (some (jwtSign p JWT_SECRET)) ⟨role, content, m, u1, t1⟩ =
      postChats db now (some (jwtSign p JWT_SECRET)) ⟨role, content, m, u2, t2⟩ ∧
    (postMoods db now (some (jwtSign p JWT_SECRET)) ⟨mood, mu1, mt1⟩).1.moods =
      db.moods ++ [⟨db.nextMoodId, p.id, mood, now⟩] ∧
    postMoods db now (some (jwtSign p JWT_SECRET)) ⟨mood, mu1, mt1⟩ =
      postMoods db now (some (jwtSign p JWT_SECRET)) ⟨mood, mu2, mt2⟩ := by
  refine ⟨?_, ?_, ?_, ?_⟩ <;>
    simp [postChats, postMoods, authenticateToken, jwtVerify_sign]

end MindfulMate
